import Mathlib

/-!
Shallow embedding of the SWAN marking assistant (src/swan_2.py).

Strings are Lean `String`s (lists of unicode code points, matching Python
str semantics for length and indexing).  The third-party document parsers
(python-docx, pandas, python-pptx) are abstracted as structured inputs:
a Word file is a list of paragraphs carrying text and an optional style
name, a workbook is a list of sheets carrying a name and the flattened
stringified cell values, a presentation is a list of slides carrying the
text of its text-bearing shapes.  `Option Report` makes the one possible
runtime fault of the analysis (indexing `paragraphs[-1]` on an empty list,
and a format/extension mismatch raising inside a parser) explicit as
`none`.  Character classes of the regular expression `\b[a-zA-Z]{3,}\b`
are modelled over ASCII, the range the pattern itself can match.
-/

set_option maxRecDepth 16384

/-- ASCII letter: the character class `[a-zA-Z]` of the token pattern. -/
def isAsciiLetter (c : Char) : Bool :=
  (97 ≤ c.toNat && c.toNat ≤ 122) || (65 ≤ c.toNat && c.toNat ≤ 90)

/-- Word character (regex `\w`, ASCII range): letter, digit or underscore.
The `\b` boundaries of the pattern are boundaries of runs of these. -/
def isWordChar (c : Char) : Bool :=
  isAsciiLetter c || (48 ≤ c.toNat && c.toNat ≤ 57) || c == '_'

/-- `str.lower` on the ASCII range. -/
def lowerChar (c : Char) : Char :=
  if 65 ≤ c.toNat && c.toNat ≤ 90 then Char.ofNat (c.toNat + 32) else c

/-- `str.lower` applied to a whole string. -/
def pyLower (s : String) : String := String.mk (s.data.map lowerChar)

/-- Whitespace as stripped by `str.strip`. -/
def isPySpace (c : Char) : Bool := c == ' ' || c == '\t' || c == '\n' || c == '\r'

/-- `str.strip()`: drop leading and trailing whitespace. -/
def pyStrip (s : String) : String :=
  String.mk (((s.data.dropWhile isPySpace).reverse.dropWhile isPySpace).reverse)

/-- Python's `pat in s` substring test. -/
def strContains (s pat : String) : Bool := decide (pat.data <:+: s.data)

/-- Python's `s.startswith(pat)` test. -/
def pyStartsWith (s pat : String) : Bool := decide (pat.data <+: s.data)

/-- Split a character list into its maximal runs of characters satisfying
`keep`; `acc` holds the current run reversed. -/
def splitRuns (keep : Char → Bool) (acc : List Char) : List Char → List (List Char)
  | [] => if acc.isEmpty then [] else [acc.reverse]
  | c :: cs =>
    if keep c then splitRuns keep (c :: acc) cs
    else if acc.isEmpty then splitRuns keep [] cs
    else acc.reverse :: splitRuns keep [] cs

/-- `re.findall(r"\b[a-zA-Z]{3,}\b", s)`: the maximal word-character runs
of `s` that consist solely of letters and have length at least 3 (a
letter run adjoining a digit or underscore has no word boundary there,
so such a run is not matched). -/
def pyFindall (s : String) : List String :=
  ((splitRuns isWordChar [] s.data).filter
    (fun r => decide (3 ≤ r.length) && r.all isAsciiLetter)).map String.mk

/-- Distinct elements in order of first occurrence: the iteration order of
`collections.Counter` over its insertion sequence. -/
def dedupFirst : List String → List String
  | [] => []
  | x :: xs => x :: (dedupFirst xs).filter (fun y => y != x)

/-- Paragraph-length threshold `SHORT_PARAGRAPH_LIMIT`. -/
def SHORT_PARAGRAPH_LIMIT : Nat := 260

/-- `find_short_paragraphs`: the blocks strictly shorter than the limit. -/
def find_short_paragraphs (paragraphs : List String) : List String :=
  paragraphs.filter (fun p => decide (p.length < SHORT_PARAGRAPH_LIMIT))

/-- `find_spelling_issues`: lower-case the space-joined blocks, collect the
tokens of the pattern, and keep (in first-occurrence order) each distinct
token occurring at least 3 times. -/
def find_spelling_issues (paragraphs : List String) : List String :=
  let text := pyLower (String.intercalate " " paragraphs)
  let words := pyFindall text
  (dedupFirst words).filter (fun w => decide (3 ≤ words.count w))

/-- A paragraph of a Word document: its text and optional style name. -/
structure DocxPara where
  text : String
  style : Option String
  deriving DecidableEq

/-- A Word document as seen through python-docx: its paragraph list. -/
structure Docx where
  paragraphs : List DocxPara
  deriving DecidableEq

/-- A worksheet: its name and the flattened stringified cell values. -/
structure Sheet where
  name : String
  cells : List String
  deriving DecidableEq

/-- `count_headings_docx`. -/
def count_headings_docx (doc : Option Docx) : Nat :=
  match doc with
  | none => 0
  | some d =>
    d.paragraphs.countP (fun p =>
      match p.style with
      | some styleName => pyStartsWith styleName "Heading"
      | none => false)

/-- `has_bullets_docx`. -/
def has_bullets_docx (doc : Option Docx) : Bool :=
  match doc with
  | none => false
  | some d => d.paragraphs.any (fun p => strContains (p.style.getD "") "List")

/-- `extract_text_from_docx`: stripped paragraph texts, empties dropped. -/
def extract_text_from_docx (d : Docx) : List String :=
  (d.paragraphs.map (fun p => pyStrip p.text)).filter (fun t => !t.isEmpty)

/-- `extract_text_from_xlsx`: per sheet, a `"Sheet: <name>"` marker block
followed by the cell values whose stripped form is non-empty. -/
def extract_text_from_xlsx (sheets : List Sheet) : List String :=
  sheets.flatMap (fun sh =>
    ("Sheet: " ++ sh.name) :: sh.cells.filter (fun v => !(pyStrip v).isEmpty))

/-- `extract_text_from_pptx`: per 1-indexed slide with any non-blank shape
text, a `"Slide <n>:"` marker block followed by the stripped texts. -/
def extract_text_from_pptx (slides : List (List String)) : List String :=
  (List.enumFrom 1 slides).flatMap (fun p =>
    let slide_text := (p.2.map pyStrip).filter (fun t => !t.isEmpty)
    if slide_text.isEmpty then []
    else ("Slide " ++ toString p.1 ++ ":") :: slide_text)

/-- An uploaded file, already interpreted by the parser its real format
selects; `rawFile` stands for content of any other format. -/
inductive FileData where
  | docxFile (d : Docx)
  | xlsxFile (sheets : List Sheet)
  | pptxFile (slides : List (List String))
  | rawFile
  deriving DecidableEq

/-- The four feedback lists returned by `run_swan_analysis`. -/
structure Report where
  strengths : List String
  weaknesses : List String
  actions : List String
  next_steps : List String
  deriving DecidableEq

/-- The extraction step of `run_swan_analysis`: the extractor chosen by the
extension, applied to the file.  `none` models the parser raising on a
file that is not of the format the extension announces, and covers no
supported extension. -/
def extract_dispatch (file : FileData) (ext : String) : Option (Option Docx × List String) :=
  if ext = ".docx" then
    match file with
    | .docxFile d => some (some d, extract_text_from_docx d)
    | _ => none
  else if ext = ".xlsx" then
    match file with
    | .xlsxFile sheets => some (none, extract_text_from_xlsx sheets)
    | _ => none
  else if ext = ".pptx" then
    match file with
    | .pptxFile slides => some (none, extract_text_from_pptx slides)
    | _ => none
  else none

/-- The two Word-only strength checks, in evaluation order. -/
def docx_strengths (doc : Option Docx) : List String :=
  (if 1 ≤ count_headings_docx doc then
    ["You have used headings to organise your work."] else [])
  ++ (if has_bullets_docx doc then
    ["Bullet points help make your ideas clear and easy to read."] else [])

/-- The two sheet/slide strength checks, in evaluation order. -/
def sheet_slide_strengths (paragraphs : List String) : List String :=
  (if paragraphs.any (fun p => strContains (pyLower p) "sheet:") then
    ["Your work is organised into clear sections or sheets."] else [])
  ++ (if paragraphs.any (fun p => strContains (pyLower p) "slide") then
    ["Your slides are clearly separated and labelled."] else [])

/-- The body of `run_swan_analysis` past the empty-content guard, with the
last block already in hand: the strength checks, then the three paired
weakness/action checks in order, then the three fixed next steps. -/
def full_report (doc : Option Docx) (paragraphs : List String) (lastPara : String)
    (ext : String) : Report :=
  let strengths :=
    (if ext = ".docx" then docx_strengths doc else [])
    ++ (if ext = ".xlsx" ∨ ext = ".pptx" then sheet_slide_strengths paragraphs else [])
    ++ (if (find_short_paragraphs paragraphs).isEmpty then
      ["Most of your sections are developed with enough detail."] else [])
  let wa1 : List String × List String :=
    if (find_short_paragraphs paragraphs).isEmpty then ([], [])
    else (["Some sections are very short and lack detail."],
      ["Action: Choose one short section and add at least one example or explanation."])
  let wa2 : List String × List String :=
    if lastPara.length < SHORT_PARAGRAPH_LIMIT then
      (["There is no clear conclusion at the end of your work."],
       ["Action: Add a short conclusion that summarises your key points and links back to the question or purpose."])
    else ([], [])
  let wa3 : List String × List String :=
    if (find_spelling_issues paragraphs).isEmpty then ([], [])
    else (["The same word or phrase is repeated many times, which may be a spelling or vocabulary issue."],
      ["Action: Review repeated words and check their spelling or replace some with alternatives."])
  { strengths := strengths
    weaknesses := wa1.1 ++ wa2.1 ++ wa3.1
    actions := wa1.2 ++ wa2.2 ++ wa3.2
    next_steps :=
      ["Read your work aloud to check that it flows logically and makes sense.",
       "Compare your structure to a model answer or exemplar to see how you could improve organisation.",
       "Ask a peer or teacher to highlight one section that could be clearer, then rewrite it."] }

/-- `run_swan_analysis` after extraction: the empty-content short-circuit,
then the checks; the access `paragraphs[-1]` is the `getLast?` here, and
`none` is the IndexError it would raise on an empty list. -/
def analysis_body (doc : Option Docx) (paragraphs : List String) (ext : String) :
    Option Report :=
  if paragraphs.isEmpty then
    some { strengths := [], weaknesses := ["No readable content was found in the file."],
           actions := [], next_steps := [] }
  else
    match paragraphs.getLast? with
    | none => none
    | some lastPara => some (full_report doc paragraphs lastPara ext)

/-- `run_swan_analysis`: dispatch on the extension, short-circuiting with
the single unsupported-type weakness when no extractor matches. -/
def run_swan_analysis (file : FileData) (ext : String) : Option Report :=
  if ext = ".docx" ∨ ext = ".xlsx" ∨ ext = ".pptx" then
    match extract_dispatch file ext with
    | some (doc, paragraphs) => analysis_body doc paragraphs ext
    | none => none
  else
    some { strengths := [], weaknesses := ["Unsupported file type."],
           actions := [], next_steps := [] }

/-- The downloadable report string built by the presentation layer. -/
def report_text (filename : String) (strengths weaknesses actions next_steps : List String) :
    String :=
  "SWAN Feedback Report: " ++ filename ++ "\n"
  ++ String.mk (List.replicate 30 '=') ++ "\n\n"
  ++ "STRENGTHS:\n" ++ String.intercalate "\n" (strengths.map (fun s => "- " ++ s)) ++ "\n\n"
  ++ "WEAKNESSES:\n" ++ String.intercalate "\n" (weaknesses.map (fun w => "- " ++ w)) ++ "\n\n"
  ++ "ACTIONS:\n" ++ String.intercalate "\n" (actions.map (fun a => "- " ++ a)) ++ "\n\n"
  ++ "NEXT STEPS:\n" ++ String.intercalate "\n" (next_steps.map (fun n => "- " ++ n))

/-- The tokenizer as the spec words it, for refinement comparison with
`pyFindall`: maximal runs of letters alone, of length at least 3. -/
def specAlphaTokens (s : String) : List String :=
  ((splitRuns isAsciiLetter [] s.data).filter (fun r => decide (3 ≤ r.length))).map String.mk

/-- `find_spelling_issues` as the spec words it, for refinement comparison:
identical except that tokenization ignores digits and underscores. -/
def spec_spelling_issues (paragraphs : List String) : List String :=
  let text := pyLower (String.intercalate " " paragraphs)
  let words := specAlphaTokens text
  (dedupFirst words).filter (fun w => decide (3 ≤ words.count w))

/-- A successful extraction only happens for one of the three supported
extensions. -/
theorem extract_dispatch_supported {file : FileData} {ext : String}
    {x : Option Docx × List String} (h : extract_dispatch file ext = some x) :
    ext = ".docx" ∨ ext = ".xlsx" ∨ ext = ".pptx" := by
  by_contra hn
  push_neg at hn
  obtain ⟨h1, h2, h3⟩ := hn
  simp [extract_dispatch, h1, h2, h3] at h

/-- After a successful extraction, `run_swan_analysis` is the body run on
the extracted content. -/
theorem run_eq_body {file : FileData} {ext : String} {doc : Option Docx}
    {ps : List String} (h : extract_dispatch file ext = some (doc, ps)) :
    run_swan_analysis file ext = analysis_body doc ps ext := by
  have hsup := extract_dispatch_supported h
  simp only [run_swan_analysis, if_pos hsup, h]

/-- On non-empty content the body produces the full report built from the
last block. -/
theorem analysis_body_of_ne_nil (doc : Option Docx) {ps : List String}
    (h : ps ≠ []) (ext : String) :
    analysis_body doc ps ext = some (full_report doc ps (ps.getLast h) ext) := by
  have hie : ps.isEmpty = false := by
    cases ps with
    | nil => exact absurd rfl h
    | cons a l => rfl
  simp only [analysis_body, hie, Bool.false_eq_true, if_false,
    List.getLast?_eq_getLast_of_ne_nil h]

/-- C3: for every input whose extension is not one of .docx, .xlsx, .pptx,
`run_swan_analysis` returns no strengths, the single weakness
"Unsupported file type.", no actions and no next steps, short-circuiting
before any other computation. -/
theorem unsupported_extension_report (file : FileData) (ext : String)
    (h1 : ext ≠ ".docx") (h2 : ext ≠ ".xlsx") (h3 : ext ≠ ".pptx") :
    run_swan_analysis file ext =
      some { strengths := [], weaknesses := ["Unsupported file type."],
             actions := [], next_steps := [] } := by
  simp [run_swan_analysis, h1, h2, h3]

theorem unsupported_extension_report_witness :
    run_swan_analysis FileData.rawFile ".txt" =
      some { strengths := [], weaknesses := ["Unsupported file type."],
             actions := [], next_steps := [] } :=
  unsupported_extension_report FileData.rawFile ".txt" (by decide) (by decide) (by decide)

/-- C9: the body of the analysis never faults: the empty-content guard
returns the single-weakness report before the last-block access, so
the `getLast?` of a non-empty list always succeeds. -/
theorem analysis_body_total (doc : Option Docx) (paragraphs : List String) (ext : String) :
    (∃ r, analysis_body doc paragraphs ext = some r) ∧
    (paragraphs = [] →
      analysis_body doc paragraphs ext =
        some { strengths := [], weaknesses := ["No readable content was found in the file."],
               actions := [], next_steps := [] }) := by
  cases paragraphs with
  | nil => exact ⟨⟨_, rfl⟩, fun _ => rfl⟩
  | cons p l =>
    exact ⟨⟨_, analysis_body_of_ne_nil doc (List.cons_ne_nil p l) ext⟩,
      fun h => absurd h (List.cons_ne_nil p l)⟩

theorem analysis_body_total_witness :
    analysis_body none ([] : List String) ".docx" =
      some { strengths := [], weaknesses := ["No readable content was found in the file."],
             actions := [], next_steps := [] } :=
  (analysis_body_total none [] ".docx").2 rfl

/-- C1 counterexample: the unsupported-extension short-circuit returns an
empty next-steps list, so the next-steps list does not have exactly 3
entries for every uploaded document. -/
theorem next_steps_not_always_three :
    ¬ (∀ (file : FileData) (ext : String) (r : Report),
        run_swan_analysis file ext = some r → r.next_steps.length = 3) := by
  intro h
  have h0 := h FileData.rawFile ".txt"
    { strengths := [], weaknesses := ["Unsupported file type."],
      actions := [], next_steps := [] } (by decide)
  simp at h0

/-- C1 (amended): whenever the analysis gets past the two short-circuits
(supported extension with successful extraction, non-empty content) the
next-steps list has exactly 3 entries; in the unsupported-extension and
empty-content short-circuits it is empty. -/
theorem next_steps_count :
    (∀ (file : FileData) (ext : String) (doc : Option Docx) (ps : List String) (r : Report),
      extract_dispatch file ext = some (doc, ps) → ps ≠ [] →
      run_swan_analysis file ext = some r → r.next_steps.length = 3) ∧
    (∀ (file : FileData) (ext : String) (r : Report),
      ext ≠ ".docx" → ext ≠ ".xlsx" → ext ≠ ".pptx" →
      run_swan_analysis file ext = some r → r.next_steps = []) ∧
    (∀ (file : FileData) (ext : String) (doc : Option Docx) (r : Report),
      extract_dispatch file ext = some (doc, []) →
      run_swan_analysis file ext = some r → r.next_steps = []) := by
  refine ⟨?_, ?_, ?_⟩
  · intro file ext doc ps r hx hne hrun
    rw [run_eq_body hx, analysis_body_of_ne_nil doc hne ext] at hrun
    have hr := Option.some_inj.mp hrun
    rw [← hr]
    simp [full_report]
  · intro file ext r h1 h2 h3 hrun
    rw [unsupported_extension_report file ext h1 h2 h3] at hrun
    have hr := Option.some_inj.mp hrun
    rw [← hr]
  · intro file ext doc r hx hrun
    rw [run_eq_body hx] at hrun
    have hr := Option.some_inj.mp hrun
    rw [← hr]

/-- The weakness and action lists of a full report are the two projections
of one list of fired (weakness, action) pairs, drawn in order from the
three paired checks. -/
theorem full_report_pairs (doc : Option Docx) (ps : List String) (lastPara : String)
    (ext : String) :
    ∃ pairs : List (String × String),
      pairs.Sublist
        [("Some sections are very short and lack detail.",
          "Action: Choose one short section and add at least one example or explanation."),
         ("There is no clear conclusion at the end of your work.",
          "Action: Add a short conclusion that summarises your key points and links back to the question or purpose."),
         ("The same word or phrase is repeated many times, which may be a spelling or vocabulary issue.",
          "Action: Review repeated words and check their spelling or replace some with alternatives.")] ∧
      (full_report doc ps lastPara ext).weaknesses = pairs.map Prod.fst ∧
      (full_report doc ps lastPara ext).actions = pairs.map Prod.snd := by
  by_cases h1 : (find_short_paragraphs ps).isEmpty
  · by_cases h2 : lastPara.length < SHORT_PARAGRAPH_LIMIT
    · by_cases h3 : (find_spelling_issues ps).isEmpty
      · exact ⟨[("There is no clear conclusion at the end of your work.",
          "Action: Add a short conclusion that summarises your key points and links back to the question or purpose.")],
          by decide, by simp [full_report, h1, h2, h3], by simp [full_report, h1, h2, h3]⟩
      · exact ⟨[("There is no clear conclusion at the end of your work.",
          "Action: Add a short conclusion that summarises your key points and links back to the question or purpose."),
          ("The same word or phrase is repeated many times, which may be a spelling or vocabulary issue.",
          "Action: Review repeated words and check their spelling or replace some with alternatives.")],
          by decide, by simp [full_report, h1, h2, h3], by simp [full_report, h1, h2, h3]⟩
    · by_cases h3 : (find_spelling_issues ps).isEmpty
      · exact ⟨[], by decide, by simp [full_report, h1, h2, h3], by simp [full_report, h1, h2, h3]⟩
      · exact ⟨[("The same word or phrase is repeated many times, which may be a spelling or vocabulary issue.",
          "Action: Review repeated words and check their spelling or replace some with alternatives.")],
          by decide, by simp [full_report, h1, h2, h3], by simp [full_report, h1, h2, h3]⟩
  · by_cases h2 : lastPara.length < SHORT_PARAGRAPH_LIMIT
    · by_cases h3 : (find_spelling_issues ps).isEmpty
      · exact ⟨[("Some sections are very short and lack detail.",
          "Action: Choose one short section and add at least one example or explanation."),
          ("There is no clear conclusion at the end of your work.",
          "Action: Add a short conclusion that summarises your key points and links back to the question or purpose.")],
          by decide, by simp [full_report, h1, h2, h3], by simp [full_report, h1, h2, h3]⟩
      · exact ⟨[("Some sections are very short and lack detail.",
          "Action: Choose one short section and add at least one example or explanation."),
          ("There is no clear conclusion at the end of your work.",
          "Action: Add a short conclusion that summarises your key points and links back to the question or purpose."),
          ("The same word or phrase is repeated many times, which may be a spelling or vocabulary issue.",
          "Action: Review repeated words and check their spelling or replace some with alternatives.")],
          by decide, by simp [full_report, h1, h2, h3], by simp [full_report, h1, h2, h3]⟩
    · by_cases h3 : (find_spelling_issues ps).isEmpty
      · exact ⟨[("Some sections are very short and lack detail.",
          "Action: Choose one short section and add at least one example or explanation.")],
          by decide, by simp [full_report, h1, h2, h3], by simp [full_report, h1, h2, h3]⟩
      · exact ⟨[("Some sections are very short and lack detail.",
          "Action: Choose one short section and add at least one example or explanation."),
          ("The same word or phrase is repeated many times, which may be a spelling or vocabulary issue.",
          "Action: Review repeated words and check their spelling or replace some with alternatives.")],
          by decide, by simp [full_report, h1, h2, h3], by simp [full_report, h1, h2, h3]⟩

/-- C2: past the short-circuits, the weaknesses and actions returned by
`run_swan_analysis` are the first and second projections of one ordered
list of fired check pairs, so the k-th weakness from the paired checks
aligns with the k-th action. -/
theorem weakness_action_pairing (file : FileData) (ext : String) (doc : Option Docx)
    (ps : List String) (r : Report)
    (hx : extract_dispatch file ext = some (doc, ps)) (hne : ps ≠ [])
    (hrun : run_swan_analysis file ext = some r) :
    ∃ pairs : List (String × String),
      pairs.Sublist
        [("Some sections are very short and lack detail.",
          "Action: Choose one short section and add at least one example or explanation."),
         ("There is no clear conclusion at the end of your work.",
          "Action: Add a short conclusion that summarises your key points and links back to the question or purpose."),
         ("The same word or phrase is repeated many times, which may be a spelling or vocabulary issue.",
          "Action: Review repeated words and check their spelling or replace some with alternatives.")] ∧
      r.weaknesses = pairs.map Prod.fst ∧
      r.actions = pairs.map Prod.snd := by
  rw [run_eq_body hx, analysis_body_of_ne_nil doc hne ext] at hrun
  have hr := Option.some_inj.mp hrun
  rw [← hr]
  exact full_report_pairs doc ps (ps.getLast hne) ext

theorem weakness_action_pairing_witness :
    ∃ pairs : List (String × String),
      pairs.Sublist
        [("Some sections are very short and lack detail.",
          "Action: Choose one short section and add at least one example or explanation."),
         ("There is no clear conclusion at the end of your work.",
          "Action: Add a short conclusion that summarises your key points and links back to the question or purpose."),
         ("The same word or phrase is repeated many times, which may be a spelling or vocabulary issue.",
          "Action: Review repeated words and check their spelling or replace some with alternatives.")] ∧
      (Report.mk ["You have used headings to organise your work."]
        ["Some sections are very short and lack detail.",
         "There is no clear conclusion at the end of your work."]
        ["Action: Choose one short section and add at least one example or explanation.",
         "Action: Add a short conclusion that summarises your key points and links back to the question or purpose."]
        ["Read your work aloud to check that it flows logically and makes sense.",
         "Compare your structure to a model answer or exemplar to see how you could improve organisation.",
         "Ask a peer or teacher to highlight one section that could be clearer, then rewrite it."]).weaknesses
        = pairs.map Prod.fst ∧
      (Report.mk ["You have used headings to organise your work."]
        ["Some sections are very short and lack detail.",
         "There is no clear conclusion at the end of your work."]
        ["Action: Choose one short section and add at least one example or explanation.",
         "Action: Add a short conclusion that summarises your key points and links back to the question or purpose."]
        ["Read your work aloud to check that it flows logically and makes sense.",
         "Compare your structure to a model answer or exemplar to see how you could improve organisation.",
         "Ask a peer or teacher to highlight one section that could be clearer, then rewrite it."]).actions
        = pairs.map Prod.snd :=
  weakness_action_pairing (FileData.docxFile ⟨[⟨"Intro", some "Heading 1"⟩]⟩) ".docx"
    (some ⟨[⟨"Intro", some "Heading 1"⟩]⟩) ["Intro"] _ (by decide) (by decide) (by decide)

/-- C4: past the short-circuits, if the last block is at least the limit
long, no block is shorter than the limit, and the repeated-word list is
empty, then the returned weaknesses and actions are both empty. -/
theorem no_issue_no_weakness (file : FileData) (ext : String) (doc : Option Docx)
    (ps : List String) (r : Report)
    (hx : extract_dispatch file ext = some (doc, ps)) (hne : ps ≠ [])
    (hlast : SHORT_PARAGRAPH_LIMIT ≤ ((ps.getLast?).getD "").length)
    (hshort : find_short_paragraphs ps = [])
    (hrep : find_spelling_issues ps = [])
    (hrun : run_swan_analysis file ext = some r) :
    r.weaknesses = [] ∧ r.actions = [] := by
  rw [run_eq_body hx, analysis_body_of_ne_nil doc hne ext] at hrun
  have hr := Option.some_inj.mp hrun
  rw [← hr]
  have hl : (ps.getLast?).getD "" = ps.getLast hne := by
    rw [List.getLast?_eq_getLast_of_ne_nil hne]
    rfl
  rw [hl] at hlast
  constructor <;> simp [full_report, hshort, hrep, Nat.not_lt.mpr hlast]

theorem no_issue_no_weakness_witness :
    (Report.mk ["Most of your sections are developed with enough detail."] [] []
      ["Read your work aloud to check that it flows logically and makes sense.",
       "Compare your structure to a model answer or exemplar to see how you could improve organisation.",
       "Ask a peer or teacher to highlight one section that could be clearer, then rewrite it."]).weaknesses = [] ∧
    (Report.mk ["Most of your sections are developed with enough detail."] [] []
      ["Read your work aloud to check that it flows logically and makes sense.",
       "Compare your structure to a model answer or exemplar to see how you could improve organisation.",
       "Ask a peer or teacher to highlight one section that could be clearer, then rewrite it."]).actions = [] :=
  no_issue_no_weakness
    (FileData.docxFile ⟨[⟨String.mk (List.replicate 300 'a'), none⟩]⟩) ".docx"
    (some ⟨[⟨String.mk (List.replicate 300 'a'), none⟩]⟩)
    [String.mk (List.replicate 300 'a')] _
    (by decide) (by decide) (by decide) (by decide) (by decide) (by decide)

/-- C7: past the extension guard, a single extracted block shorter than the
limit fires both the short-section and the no-conclusion weaknesses, with
their two paired actions, as the first two entries of each list; the
double-looking report is not deduplicated. -/
theorem single_short_block_double_report (file : FileData) (ext : String)
    (doc : Option Docx) (p : String) (r : Report)
    (hx : extract_dispatch file ext = some (doc, [p]))
    (hp : p.length < SHORT_PARAGRAPH_LIMIT)
    (hrun : run_swan_analysis file ext = some r) :
    r.weaknesses.take 2 =
      ["Some sections are very short and lack detail.",
       "There is no clear conclusion at the end of your work."] ∧
    r.actions.take 2 =
      ["Action: Choose one short section and add at least one example or explanation.",
       "Action: Add a short conclusion that summarises your key points and links back to the question or purpose."] := by
  rw [run_eq_body hx, analysis_body_of_ne_nil doc (List.cons_ne_nil p []) ext] at hrun
  have hr := Option.some_inj.mp hrun
  rw [← hr]
  have hshort : find_short_paragraphs [p] = [p] := by
    simp [find_short_paragraphs, hp]
  have hlast : [p].getLast (List.cons_ne_nil p []) = p := rfl
  constructor <;> simp [full_report, hshort, hlast, hp]

theorem single_short_block_double_report_witness :
    (Report.mk ["You have used headings to organise your work."]
      ["Some sections are very short and lack detail.",
       "There is no clear conclusion at the end of your work."]
      ["Action: Choose one short section and add at least one example or explanation.",
       "Action: Add a short conclusion that summarises your key points and links back to the question or purpose."]
      ["Read your work aloud to check that it flows logically and makes sense.",
       "Compare your structure to a model answer or exemplar to see how you could improve organisation.",
       "Ask a peer or teacher to highlight one section that could be clearer, then rewrite it."]).weaknesses.take 2 =
      ["Some sections are very short and lack detail.",
       "There is no clear conclusion at the end of your work."] ∧
    (Report.mk ["You have used headings to organise your work."]
      ["Some sections are very short and lack detail.",
       "There is no clear conclusion at the end of your work."]
      ["Action: Choose one short section and add at least one example or explanation.",
       "Action: Add a short conclusion that summarises your key points and links back to the question or purpose."]
      ["Read your work aloud to check that it flows logically and makes sense.",
       "Compare your structure to a model answer or exemplar to see how you could improve organisation.",
       "Ask a peer or teacher to highlight one section that could be clearer, then rewrite it."]).actions.take 2 =
      ["Action: Choose one short section and add at least one example or explanation.",
       "Action: Add a short conclusion that summarises your key points and links back to the question or purpose."] :=
  single_short_block_double_report
    (FileData.docxFile ⟨[⟨"Intro", some "Heading 1"⟩]⟩) ".docx"
    (some ⟨[⟨"Intro", some "Heading 1"⟩]⟩) "Intro" _
    (by decide) (by decide) (by decide)

/-- C6: `find_short_paragraphs` is the subsequence of the blocks whose
length is strictly below the limit of 260; a block of exactly the limit
is excluded, one of the limit less one is included. -/
theorem find_short_paragraphs_characterization (paragraphs : List String) :
    (find_short_paragraphs paragraphs).Sublist paragraphs ∧
    (∀ p, p ∈ find_short_paragraphs paragraphs ↔
      (p ∈ paragraphs ∧ p.length < SHORT_PARAGRAPH_LIMIT)) ∧
    (∀ p, p ∈ paragraphs → p.length = SHORT_PARAGRAPH_LIMIT →
      p ∉ find_short_paragraphs paragraphs) ∧
    (∀ p, p ∈ paragraphs → p.length = SHORT_PARAGRAPH_LIMIT - 1 →
      p ∈ find_short_paragraphs paragraphs) := by
  refine ⟨List.filter_sublist _, ?_, ?_, ?_⟩
  · intro p
    simp [find_short_paragraphs, List.mem_filter]
  · intro p _ hlen
    simp [find_short_paragraphs, List.mem_filter, hlen, SHORT_PARAGRAPH_LIMIT]
  · intro p hmem hlen
    simp [find_short_paragraphs, List.mem_filter, hlen, hmem, SHORT_PARAGRAPH_LIMIT]

theorem find_short_paragraphs_characterization_witness :
    String.mk (List.replicate 260 'b') ∉
      find_short_paragraphs
        [String.mk (List.replicate 260 'b'), String.mk (List.replicate 259 'c')] ∧
    String.mk (List.replicate 259 'c') ∈
      find_short_paragraphs
        [String.mk (List.replicate 260 'b'), String.mk (List.replicate 259 'c')] :=
  ⟨(find_short_paragraphs_characterization _).2.2.1 _ (by decide) (by decide),
   (find_short_paragraphs_characterization _).2.2.2 _ (by decide) (by decide)⟩

/-- A pattern that is a data-level prefix of the lowered string is a
Python substring of the lowered string. -/
theorem strContains_pyLower_of_prefix (s pat : String)
    (h : pat.data <+: s.data.map lowerChar) :
    strContains (pyLower s) pat = true := by
  rw [strContains, decide_eq_true_iff]
  obtain ⟨t, ht⟩ := h
  exact ⟨[], t, by simpa [pyLower] using ht⟩

/-- C10: whenever an .xlsx extraction yields any block at all, the analysis
reports the sections/sheets strength (the sheet marker block matches the
case-insensitive "sheet:" test), and whenever a .pptx extraction yields
any block, it reports the slides strength (a slide marker block matches
the "slide" test). -/
theorem marker_strengths :
    (∀ (sheets : List Sheet) (r : Report),
      extract_text_from_xlsx sheets ≠ [] →
      run_swan_analysis (FileData.xlsxFile sheets) ".xlsx" = some r →
      "Your work is organised into clear sections or sheets." ∈ r.strengths) ∧
    (∀ (slides : List (List String)) (r : Report),
      extract_text_from_pptx slides ≠ [] →
      run_swan_analysis (FileData.pptxFile slides) ".pptx" = some r →
      "Your slides are clearly separated and labelled." ∈ r.strengths) := by
  constructor
  · intro sheets r hne hrun
    have hx : extract_dispatch (FileData.xlsxFile sheets) ".xlsx"
        = some (none, extract_text_from_xlsx sheets) := rfl
    rw [run_eq_body hx, analysis_body_of_ne_nil none hne ".xlsx"] at hrun
    have hr := Option.some_inj.mp hrun
    rw [← hr]
    obtain ⟨sh, rest, hsheets⟩ : ∃ sh rest, sheets = sh :: rest := by
      cases sheets with
      | nil => exact absurd rfl hne
      | cons sh rest => exact ⟨sh, rest, rfl⟩
    have hmem : ("Sheet: " ++ sh.name) ∈ extract_text_from_xlsx sheets := by
      rw [hsheets, extract_text_from_xlsx]
      exact List.mem_flatMap.mpr ⟨sh, List.mem_cons_self sh rest, List.mem_cons_self _ _⟩
    have hpre : "sheet:".data <+: ("Sheet: " ++ sh.name).data.map lowerChar := by
      rw [String.data_append, List.map_append]
      have hbase : "sheet:".data <+: "Sheet: ".data.map lowerChar := by decide
      exact hbase.trans (List.prefix_append _ _)
    have hany : (extract_text_from_xlsx sheets).any
        (fun p => strContains (pyLower p) "sheet:") = true :=
      List.any_eq_true.mpr ⟨_, hmem, strContains_pyLower_of_prefix _ _ hpre⟩
    have e1 : ((".xlsx" : String) = ".docx") = False := eq_false (by decide)
    have e2 : ((".xlsx" : String) = ".xlsx" ∨ (".xlsx" : String) = ".pptx") = True :=
      eq_true (Or.inl rfl)
    simp [full_report, sheet_slide_strengths, e1, e2, hany]
  · intro slides r hne hrun
    have hx : extract_dispatch (FileData.pptxFile slides) ".pptx"
        = some (none, extract_text_from_pptx slides) := rfl
    rw [run_eq_body hx, analysis_body_of_ne_nil none hne ".pptx"] at hrun
    have hr := Option.some_inj.mp hrun
    rw [← hr]
    obtain ⟨pr, hpr, hfpr⟩ : ∃ pr ∈ List.enumFrom 1 slides,
        ¬ ((pr.2.map pyStrip).filter (fun t => !t.isEmpty)).isEmpty = true := by
      by_contra hall
      push_neg at hall
      apply hne
      rw [extract_text_from_pptx]
      apply List.flatMap_eq_nil_iff.mpr
      intro x hxmem
      simp [hall x hxmem]
    have hmem : ("Slide " ++ toString pr.1 ++ ":") ∈ extract_text_from_pptx slides := by
      rw [extract_text_from_pptx]
      apply List.mem_flatMap.mpr
      refine ⟨pr, hpr, ?_⟩
      show ("Slide " ++ toString pr.1 ++ ":") ∈
        (if ((pr.2.map pyStrip).filter (fun t => !t.isEmpty)).isEmpty then []
         else ("Slide " ++ toString pr.1 ++ ":") :: (pr.2.map pyStrip).filter (fun t => !t.isEmpty))
      rw [if_neg hfpr]
      exact List.mem_cons_self _ _
    have hpre : "slide".data <+: ("Slide " ++ toString pr.1 ++ ":").data.map lowerChar := by
      rw [String.data_append, String.data_append, List.map_append, List.map_append]
      have hbase : "slide".data <+: "Slide ".data.map lowerChar := by decide
      exact (hbase.trans (List.prefix_append _ _)).trans (List.prefix_append _ _)
    have hany : (extract_text_from_pptx slides).any
        (fun p => strContains (pyLower p) "slide") = true :=
      List.any_eq_true.mpr ⟨_, hmem, strContains_pyLower_of_prefix _ _ hpre⟩
    have e1 : ((".pptx" : String) = ".docx") = False := eq_false (by decide)
    have e2 : ((".pptx" : String) = ".xlsx" ∨ (".pptx" : String) = ".pptx") = True :=
      eq_true (Or.inr rfl)
    simp [full_report, sheet_slide_strengths, e1, e2, hany]

theorem marker_strengths_witness :
    "Your work is organised into clear sections or sheets." ∈
      (Report.mk ["Your work is organised into clear sections or sheets."]
        ["Some sections are very short and lack detail.",
         "There is no clear conclusion at the end of your work."]
        ["Action: Choose one short section and add at least one example or explanation.",
         "Action: Add a short conclusion that summarises your key points and links back to the question or purpose."]
        ["Read your work aloud to check that it flows logically and makes sense.",
         "Compare your structure to a model answer or exemplar to see how you could improve organisation.",
         "Ask a peer or teacher to highlight one section that could be clearer, then rewrite it."]).strengths ∧
    "Your slides are clearly separated and labelled." ∈
      (Report.mk ["Your slides are clearly separated and labelled."]
        ["Some sections are very short and lack detail.",
         "There is no clear conclusion at the end of your work."]
        ["Action: Choose one short section and add at least one example or explanation.",
         "Action: Add a short conclusion that summarises your key points and links back to the question or purpose."]
        ["Read your work aloud to check that it flows logically and makes sense.",
         "Compare your structure to a model answer or exemplar to see how you could improve organisation.",
         "Ask a peer or teacher to highlight one section that could be clearer, then rewrite it."]).strengths :=
  ⟨marker_strengths.1 [⟨"S", []⟩] _ (by decide) (by decide),
   marker_strengths.2 [["hello world"]] _ (by decide) (by decide)⟩

/-- Distinct keeping the first occurrence: membership is unchanged. -/
theorem mem_dedupFirst (l : List String) (a : String) : a ∈ dedupFirst l ↔ a ∈ l := by
  induction l with
  | nil => simp [dedupFirst]
  | cons x xs ih =>
    show a ∈ x :: (dedupFirst xs).filter (fun y => y != x) ↔ a ∈ x :: xs
    simp only [List.mem_cons, List.mem_filter, ih, bne_iff_ne]
    by_cases hax : a = x
    · simp [hax]
    · simp [hax]

/-- Distinct keeping the first occurrence: the result has no duplicates. -/
theorem nodup_dedupFirst (l : List String) : (dedupFirst l).Nodup := by
  induction l with
  | nil => simp [dedupFirst]
  | cons x xs ih =>
    show (x :: (dedupFirst xs).filter (fun y => y != x)).Nodup
    refine List.nodup_cons.mpr ⟨?_, List.Nodup.filter _ ih⟩
    intro hmem
    have hx := (List.mem_filter.mp hmem).2
    rw [bne_iff_ne] at hx
    exact hx rfl

/-- Every token of the pattern has at least 3 characters, all letters. -/
theorem pyFindall_shape {s w : String} (h : w ∈ pyFindall s) :
    3 ≤ w.length ∧ w.data.all isAsciiLetter = true := by
  rw [pyFindall] at h
  obtain ⟨r, hr, hw⟩ := List.mem_map.mp h
  obtain ⟨_, hp⟩ := List.mem_filter.mp hr
  rw [Bool.and_eq_true, decide_eq_true_iff] at hp
  refine ⟨?_, ?_⟩
  · rw [← hw, String.length_mk]
    exact hp.1
  · rw [← hw]
    exact hp.2

/-- C5 (amended): a word is returned by `find_spelling_issues` exactly when
it is a token of the lowered space-joined text (a maximal word-character
run consisting solely of letters, of length at least 3) that occurs at
least 3 times among those tokens; consequently every returned word has at
least 3 letters, and the returned list is duplicate-free. -/
theorem find_spelling_issues_characterization (paragraphs : List String) (w : String) :
    (w ∈ find_spelling_issues paragraphs ↔
      (w ∈ pyFindall (pyLower (String.intercalate " " paragraphs)) ∧
       3 ≤ (pyFindall (pyLower (String.intercalate " " paragraphs))).count w)) ∧
    (w ∈ find_spelling_issues paragraphs →
      3 ≤ w.length ∧ w.data.all isAsciiLetter = true) ∧
    (find_spelling_issues paragraphs).Nodup := by
  have hmem : ∀ v, v ∈ find_spelling_issues paragraphs ↔
      (v ∈ pyFindall (pyLower (String.intercalate " " paragraphs)) ∧
       3 ≤ (pyFindall (pyLower (String.intercalate " " paragraphs))).count v) := by
    intro v
    simp only [find_spelling_issues, List.mem_filter, mem_dedupFirst, decide_eq_true_iff]
  refine ⟨hmem w, fun h => pyFindall_shape ((hmem w).mp h).1, ?_⟩
  simp only [find_spelling_issues]
  exact List.Nodup.filter _ (nodup_dedupFirst _)

theorem find_spelling_issues_characterization_witness :
    "the" ∈ find_spelling_issues ["the cat the cat the dog"] ∧
    3 ≤ ("the" : String).length ∧ ("the" : String).data.all isAsciiLetter = true :=
  ⟨by decide,
   (find_spelling_issues_characterization ["the cat the cat the dog"] "the").2.1 (by decide)⟩

/-- C5 counterexample: on the block "abc1 abc1 abc1" the code's pattern
finds no token at all (each letter run abuts a digit, so there is no word
boundary after it), while tokenizing into alphabetic runs of length at
least 3, as the claim words it, yields "abc" three times; the two
computations disagree on this input. -/
theorem spelling_tokenization_differs_from_spec :
    find_spelling_issues ["abc1 abc1 abc1"] = [] ∧
    spec_spelling_issues ["abc1 abc1 abc1"] = ["abc"] ∧
    find_spelling_issues ["abc1 abc1 abc1"] ≠ spec_spelling_issues ["abc1 abc1 abc1"] :=
  ⟨by decide, by decide, by decide⟩

/-- Characters of the accumulator pass of `String.intercalate`. -/
theorem intercalate_go_data (s : String) :
    ∀ (as : List String) (acc : String),
      (String.intercalate.go acc s as).data
        = acc.data ++ as.flatMap (fun a => s.data ++ a.data)
  | [], acc => by simp [String.intercalate.go]
  | a :: as, acc => by
    rw [String.intercalate.go, intercalate_go_data s as (acc ++ s ++ a)]
    simp [String.data_append]

/-- Characters of `String.intercalate` on a non-empty list. -/
theorem intercalate_cons_data (s a : String) (as : List String) :
    (String.intercalate s (a :: as)).data
      = a.data ++ as.flatMap (fun x => s.data ++ x.data) :=
  intercalate_go_data s as a

/-- Each list entry occurs inside the intercalated string. -/
theorem mem_infix_intercalate (sep x : String) :
    ∀ (l : List String), x ∈ l → x.data <:+: (String.intercalate sep l).data
  | [], hx => absurd hx (List.not_mem_nil x)
  | a :: as, hx => by
    rw [intercalate_cons_data]
    rcases List.mem_cons.mp hx with h | h
    · subst h
      exact ⟨[], as.flatMap (fun y => sep.data ++ y.data), by simp⟩
    · cases as with
      | nil => cases h
      | cons b t =>
        have ih := mem_infix_intercalate sep x (b :: t) h
        rw [intercalate_cons_data] at ih
        obtain ⟨u, v, huv⟩ := ih
        refine ⟨a.data ++ sep.data ++ u, v, ?_⟩
        simp only [List.append_assoc] at huv ⊢
        rw [List.flatMap_cons]
        simp only [List.append_assoc]
        rw [← huv]

/-- A data-level infix is a Python substring. -/
theorem strContains_of_infix_data {s pat : String} (h : pat.data <:+: s.data) :
    strContains s pat = true := by
  rw [strContains, decide_eq_true_iff]
  exact h

/-- A substring survives appending on the right. -/
theorem strContains_extend_right {s pat : String} (t : String)
    (h : strContains s pat = true) : strContains (s ++ t) pat = true := by
  rw [strContains, decide_eq_true_iff] at h ⊢
  rw [String.data_append]
  obtain ⟨u, v, huv⟩ := h
  exact ⟨u, v ++ t.data, by rw [← huv]; simp⟩

/-- A substring survives appending on the left. -/
theorem strContains_extend_left {s pat : String} (t : String)
    (h : strContains s pat = true) : strContains (t ++ s) pat = true := by
  rw [strContains, decide_eq_true_iff] at h ⊢
  rw [String.data_append]
  obtain ⟨u, v, huv⟩ := h
  exact ⟨t.data ++ u, v, by rw [← huv]; simp⟩

/-- C8: the downloadable report starts with the header line carrying the
filename, then a line of 30 equals signs, then the four sections in
order; each section lists every entry of its list as a "- " line, with no
truncation. -/
theorem report_text_structure (filename : String)
    (strengths weaknesses actions next_steps : List String) :
    report_text filename strengths weaknesses actions next_steps =
      "SWAN Feedback Report: " ++ filename ++ "\n"
      ++ "==============================" ++ "\n\n"
      ++ "STRENGTHS:\n" ++ String.intercalate "\n" (strengths.map (fun s => "- " ++ s)) ++ "\n\n"
      ++ "WEAKNESSES:\n" ++ String.intercalate "\n" (weaknesses.map (fun w => "- " ++ w)) ++ "\n\n"
      ++ "ACTIONS:\n" ++ String.intercalate "\n" (actions.map (fun a => "- " ++ a)) ++ "\n\n"
      ++ "NEXT STEPS:\n" ++ String.intercalate "\n" (next_steps.map (fun n => "- " ++ n)) ∧
    (∀ e, e ∈ strengths ++ weaknesses ++ actions ++ next_steps →
      strContains (report_text filename strengths weaknesses actions next_steps)
        ("- " ++ e) = true) := by
  have h30 : String.mk (List.replicate 30 '=') = "==============================" := by decide
  have heq : report_text filename strengths weaknesses actions next_steps =
      "SWAN Feedback Report: " ++ filename ++ "\n"
      ++ "==============================" ++ "\n\n"
      ++ "STRENGTHS:\n" ++ String.intercalate "\n" (strengths.map (fun s => "- " ++ s)) ++ "\n\n"
      ++ "WEAKNESSES:\n" ++ String.intercalate "\n" (weaknesses.map (fun w => "- " ++ w)) ++ "\n\n"
      ++ "ACTIONS:\n" ++ String.intercalate "\n" (actions.map (fun a => "- " ++ a)) ++ "\n\n"
      ++ "NEXT STEPS:\n" ++ String.intercalate "\n" (next_steps.map (fun n => "- " ++ n)) := by
    rw [report_text, h30]
  refine ⟨heq, ?_⟩
  intro e he
  rw [heq]
  rcases List.mem_append.mp he with he' | hn
  · rcases List.mem_append.mp he' with he'' | ha
    · rcases List.mem_append.mp he'' with hs | hw
      · iterate 9 apply strContains_extend_right
        apply strContains_extend_left
        exact strContains_of_infix_data
          (mem_infix_intercalate "\n" ("- " ++ e) _ (List.mem_map_of_mem _ hs))
      · iterate 6 apply strContains_extend_right
        apply strContains_extend_left
        exact strContains_of_infix_data
          (mem_infix_intercalate "\n" ("- " ++ e) _ (List.mem_map_of_mem _ hw))
    · iterate 3 apply strContains_extend_right
      apply strContains_extend_left
      exact strContains_of_infix_data
        (mem_infix_intercalate "\n" ("- " ++ e) _ (List.mem_map_of_mem _ ha))
  · apply strContains_extend_left
    exact strContains_of_infix_data
      (mem_infix_intercalate "\n" ("- " ++ e) _ (List.mem_map_of_mem _ hn))

theorem report_text_structure_witness :
    strContains (report_text "f.docx" ["s1"] [] ["a1", "a2"] ["n"]) ("- " ++ "a2") = true :=
  (report_text_structure "f.docx" ["s1"] [] ["a1", "a2"] ["n"]).2 "a2" (by decide)

theorem next_steps_count_witness :
    (Report.mk ["You have used headings to organise your work."]
      ["Some sections are very short and lack detail.",
       "There is no clear conclusion at the end of your work."]
      ["Action: Choose one short section and add at least one example or explanation.",
       "Action: Add a short conclusion that summarises your key points and links back to the question or purpose."]
      ["Read your work aloud to check that it flows logically and makes sense.",
       "Compare your structure to a model answer or exemplar to see how you could improve organisation.",
       "Ask a peer or teacher to highlight one section that could be clearer, then rewrite it."]).next_steps.length = 3 ∧
    (Report.mk [] ["Unsupported file type."] [] []).next_steps = [] ∧
    (Report.mk [] ["No readable content was found in the file."] [] []).next_steps = [] := by
  refine ⟨?_, ?_, ?_⟩
  · exact next_steps_count.1 (FileData.docxFile ⟨[⟨"Intro", some "Heading 1"⟩]⟩) ".docx"
      (some ⟨[⟨"Intro", some "Heading 1"⟩]⟩) ["Intro"] _ (by decide) (by decide) (by decide)
  · exact next_steps_count.2.1 FileData.rawFile ".txt" _
      (by decide) (by decide) (by decide) (by decide)
  · exact next_steps_count.2.2 (FileData.docxFile ⟨[]⟩) ".docx" (some ⟨[]⟩) _
      (by decide) (by decide)
